import Mathlib

/-!
A shallow embedding of pcan-id (src/pcan-id.c), a CLI tool that enumerates
Peak CAN USB devices, opens one of them, and exchanges fixed 16-byte bulk
transfer packets to read or write a one-byte device id and a four-byte
serial number.

Modelling conventions:
- C byte buffers (unsigned char pkt[16]) are lists of Nat; a store into a
  uint8 cell takes the value modulo 256.
- The host USB stack (libusb) is the environment: the system device list,
  whether opening a device succeeds, and the outcome of each bulk transfer
  are inputs of the model.  The OS-call failure paths that the claims do
  not touch (libusb_init, libusb_get_device_list, descriptor reads) are
  modelled as succeeding.
- printf output is modelled as structured events rather than formatted
  strings.
-/

namespace PcanId

/-- One entry of the static device catalog (struct pcan_type, lines 38-42). -/
structure PcanType where
  name : String
  vendor_id : Nat
  product_id : Nat
deriving DecidableEq

/-- The static catalog pcan_types (lines 44-52).  The all-zero entry in the C
array is only a scan terminator and is not part of the list. -/
def pcan_types : List PcanType :=
  [{ name := "PCAN-USB", vendor_id := 0x0c72, product_id := 0x000c }]

/-- The fields of a libusb device descriptor and device that the program
reads: vendor id, product id, bus number and device address. -/
structure DevDescr where
  idVendor : Nat
  idProduct : Nat
  bus : Nat
  addr : Nat
deriving DecidableEq

/-- A device of the system device list, together with the environment fact
whether libusb_open on it would succeed (permissions etc.). -/
structure Device where
  descr : DevDescr
  openOk : Bool
deriving DecidableEq

/-- The catalog scan of browse_devices (lines 93-101): linear scan of
pcan_types, stopping at the first entry whose vendor and product ids both
match the descriptor. -/
def matchCatalog (descr : DevDescr) : Option PcanType :=
  pcan_types.find? (fun p => p.vendor_id == descr.idVendor && p.product_id == descr.idProduct)

/-- Output events of browse_devices: the listing line printed for a matched
device when list_devices is set (line 105), and the message printed when
libusb_open fails (line 116). -/
inductive BrowseEvent
  | listEntry (index vendor product bus addr : Nat) (name : String)
  | openError
deriving DecidableEq

/-- The observable result of browse_devices: its printed output, the out
parameters dev_handle and pcan_type, and how many times libusb_open was
called. -/
structure BrowseResult where
  output : List BrowseEvent
  dev_handle : Option Device
  pcan_type : Option PcanType
  openAttempts : Nat
deriving DecidableEq

/-- The device loop of browse_devices (lines 84-123).  The counter i is the
zero-based index over catalog-matched devices only; when a matched device
has index equal to device_idx the program records it and calls libusb_open
on it, whether or not list_devices is set.  On open failure dev_handle is
left unchanged (the C out parameter keeps its initial null). -/
def browseLoop (device_idx : Nat) (list_devices : Bool) :
    List Device → Nat → BrowseResult
  | [], _ => { output := [], dev_handle := none, pcan_type := none, openAttempts := 0 }
  | dev :: rest, i =>
    match matchCatalog dev.descr with
    | none => browseLoop device_idx list_devices rest i
    | some p =>
      let r := browseLoop device_idx list_devices rest (i + 1)
      let out1 : List BrowseEvent :=
        if list_devices then
          [BrowseEvent.listEntry i dev.descr.idVendor dev.descr.idProduct
            dev.descr.bus dev.descr.addr p.name]
        else []
      if i = device_idx then
        if dev.openOk then
          { output := out1 ++ r.output, dev_handle := some dev,
            pcan_type := some p, openAttempts := r.openAttempts + 1 }
        else
          { output := out1 ++ [BrowseEvent.openError] ++ r.output,
            dev_handle := r.dev_handle, pcan_type := some p,
            openAttempts := r.openAttempts + 1 }
      else
        { output := out1 ++ r.output, dev_handle := r.dev_handle,
          pcan_type := r.pcan_type, openAttempts := r.openAttempts }

/-- browse_devices (lines 66-126) on a successfully retrieved device list:
the loop starts with match index i = 0 and null out parameters. -/
def browse_devices (devices : List Device) (device_idx : Nat) (list_devices : Bool) :
    BrowseResult :=
  browseLoop device_idx list_devices devices 0

/-- The catalog-matched devices of a system device list, each with the
catalog entry it matched, in enumeration order. -/
def matchedDevices (devices : List Device) : List (PcanType × Device) :=
  devices.filterMap (fun d => (matchCatalog d.descr).map (fun p => (p, d)))

/-- The number of catalog-matched devices of a system device list. -/
def countMatches (devices : List Device) : Nat :=
  (matchedDevices devices).length

/-- The listing line browse_devices prints for the match with index i
(line 105). -/
def entryOf (i : Nat) (pd : PcanType × Device) : BrowseEvent :=
  BrowseEvent.listEntry i pd.2.descr.idVendor pd.2.descr.idProduct
    pd.2.descr.bus pd.2.descr.addr pd.1.name

/-- The listing lines among a list of browse output events. -/
def listEntriesOf (evs : List BrowseEvent) : List BrowseEvent :=
  evs.filter (fun e => match e with
    | BrowseEvent.listEntry _ _ _ _ _ _ => true
    | BrowseEvent.openError => false)

/-! Command packets.  A packet is 16 bytes (unsigned char pkt[16], line 183),
always fully zeroed by memset before the header and payload are stored. -/

/-- The packet of the set-device-id action (lines 294-297):
memset to zero, byte 0 = 4, byte 1 = 2, byte 2 = device_id (a uint8 store). -/
def encode_set_device_id (device_id : Nat) : List Nat :=
  [4, 2, device_id % 256] ++ List.replicate 13 0

/-- The four bytes of htole32 of a 32-bit value, least significant first
(line 315). -/
def le32_bytes (n : Nat) : List Nat :=
  [n % 256, n / 256 % 256, n / 65536 % 256, n / 16777216 % 256]

/-- The packet of the set-serial-number action (lines 311-316): memset to
zero, byte 0 = 6, byte 1 = 2, bytes 2..5 = the serial number in
little-endian order. -/
def encode_set_serial (serial_nr : Nat) : List Nat :=
  [6, 2] ++ le32_bytes serial_nr ++ List.replicate 10 0

/-- The get-device-id request packet (lines 334-336): memset to zero,
byte 0 = 4, byte 1 = 1. -/
def get_device_id_req : List Nat :=
  [4, 1] ++ List.replicate 14 0

/-- The get-serial-number request packet (lines 369-371): memset to zero,
byte 0 = 6, byte 1 = 1. -/
def get_serial_req : List Nat :=
  [6, 1] ++ List.replicate 14 0

/-- Reading the serial number out of a packet (lines 395-397): memcpy of
bytes 2..5 into a uint32 followed by le32toh, i.e. the little-endian value
of bytes 2, 3, 4, 5. -/
def le32_decode (pkt : List Nat) : Nat :=
  pkt.getD 2 0 + pkt.getD 3 0 * 256 + pkt.getD 4 0 * 65536 + pkt.getD 5 0 * 16777216

/-! The bulk transfers of the actions. -/

/-- A bulk transfer as main performs it: a send on OUT endpoint 0x01 with
the given 16-byte packet, or a receive on IN endpoint 0x81. -/
inductive Transfer
  | send (pkt : List Nat)
  | recv
deriving DecidableEq

/-- The environment outcome of a send transfer: success, or a libusb error
whose human-readable name (libusb_error_name) is the given code. -/
inductive SendResult
  | ok
  | err (code : String)
deriving DecidableEq

/-- The environment outcome of a receive transfer: success with the 16
response bytes the device delivered, or a libusb error with its
human-readable name. -/
inductive RecvResult
  | ok (data : List Nat)
  | err (code : String)
deriving DecidableEq

/-- Console events of the query and set actions: the error line printed for
a failed transfer (printf of libusb_error_name), and the two value lines of
the query action (lines 361 and 398). -/
inductive QEvent
  | errorLog (code : String)
  | printDeviceId (v : Nat)
  | printSerial (v : Nat)
deriving DecidableEq

/-- A send on endpoint 0x01 with its error check (for example lines 339-347):
on failure the error name is printed and execution continues. -/
def libusb_bulk_send (r : SendResult) : List QEvent :=
  match r with
  | SendResult.ok => []
  | SendResult.err c => [QEvent.errorLog c]

/-- A receive on endpoint 0x81 into the packet buffer with its error check
(for example lines 350-358): on success the buffer holds the response bytes,
on failure the error name is printed, the buffer is left unchanged, and
execution continues. -/
def libusb_bulk_recv (pkt : List Nat) (r : RecvResult) : List Nat × List QEvent :=
  match r with
  | RecvResult.ok data => (data, [])
  | RecvResult.err c => (pkt, [QEvent.errorLog c])

/-- The query action (lines 329-399): build the get-device-id request, send
it, receive a response into the same buffer, print byte 2 of the buffer as
the device id; then build the get-serial-number request, send it, receive a
response into the buffer, and print the little-endian value of bytes 2..5
of the buffer as the serial number. -/
def query_action (o1 : SendResult) (i1 : RecvResult) (o2 : SendResult) (i2 : RecvResult) :
    List QEvent :=
  let pkt := get_device_id_req
  let ev1 := libusb_bulk_send o1
  let pr1 := libusb_bulk_recv pkt i1
  let device_id := pr1.1.getD 2 0
  let pkt2 := get_serial_req
  let ev4 := libusb_bulk_send o2
  let pr2 := libusb_bulk_recv pkt2 i2
  let serial_nr := le32_decode pr2.1
  ev1 ++ pr1.2 ++ [QEvent.printDeviceId device_id] ++ ev4 ++ pr2.2 ++
    [QEvent.printSerial serial_nr]

/-- Specification-side description of the console log of a send transfer,
used to state properties of the query action: the error line it prints, if
any. -/
def sendLog : SendResult → List QEvent
  | SendResult.ok => []
  | SendResult.err c => [QEvent.errorLog c]

/-- Specification-side description of the console log of a receive
transfer: the error line it prints, if any. -/
def recvLog : RecvResult → List QEvent
  | RecvResult.ok _ => []
  | RecvResult.err c => [QEvent.errorLog c]

/-- Specification-side description of the packet buffer contents after a
receive into a buffer holding the given request: the response bytes on
success, the unchanged request buffer on failure. -/
def bufAfter (req : List Nat) : RecvResult → List Nat
  | RecvResult.ok data => data
  | RecvResult.err _ => req

/-- The action main dispatches on (the variable action, set by getopt). -/
inductive Action
  | list
  | query
  | setId (device_id : Nat)
  | setSerial (serial_nr : Nat)
deriving DecidableEq

/-- The bulk transfers each action performs, in order (lines 293-399): the
set actions send their single packet and read nothing; the query action
sends a request and reads a response, twice; listing transfers nothing. -/
def action_transfers : Action → List Transfer
  | Action.list => []
  | Action.query =>
      [Transfer.send get_device_id_req, Transfer.recv,
       Transfer.send get_serial_req, Transfer.recv]
  | Action.setId d => [Transfer.send (encode_set_device_id d)]
  | Action.setSerial n => [Transfer.send (encode_set_serial n)]

/-- UCHAR_MAX of limits.h. -/
def UCHAR_MAX : Nat := 255

/-- The result of handling the -i option argument. -/
inductive IOptionResult
  | ok (device_id : Nat)
  | argumentError
deriving DecidableEq

/-- The -i option handler (lines 207-218) applied to the parsed uint32
value: values greater than or equal to UCHAR_MAX are rejected with an error
message and exit(1); otherwise the value is stored into the uint8 variable
device_id. -/
def handle_i_option (uint32 : Nat) : IOptionResult :=
  if UCHAR_MAX ≤ uint32 then IOptionResult.argumentError
  else IOptionResult.ok (uint32 % 256)

/-- The implicit conversion of the uint32 variable device_idx to the uint8
parameter device_idx of browse_devices at the call on line 249. -/
def uint8_of_uint32 (v : Nat) : Nat := v % 256

/-- The outcome of main after an action was selected: the requested device
was not found (error message and exit 1, lines 253-256), the listing was
printed (exit 0, lines 258-259), or the device was opened and the action
performed its transfers. -/
inductive MainResult
  | notFound (output : List BrowseEvent)
  | listed (output : List BrowseEvent)
  | acted (output : List BrowseEvent) (transfers : List Transfer)
deriving DecidableEq

/-- Main from the browse_devices call onward (lines 249-399): browse with
list_devices set exactly for the list action and with device_idx narrowed
to uint8; fail if no device handle was obtained; return after listing;
otherwise perform the transfers of the selected action. -/
def run_main (action : Action) (device_idx : Nat) (devices : List Device) : MainResult :=
  let br := browse_devices devices (uint8_of_uint32 device_idx) (decide (action = Action.list))
  match br.dev_handle with
  | none => MainResult.notFound br.output
  | some _ =>
    match action with
    | Action.list => MainResult.listed br.output
    | a => MainResult.acted br.output (action_transfers a)

/-- The process exit code of a main outcome (device not found exits 1,
lines 253-256; listing and a completed action exit 0). -/
def MainResult.exitCode : MainResult → Nat
  | MainResult.notFound _ => 1
  | MainResult.listed _ => 0
  | MainResult.acted _ _ => 0

/-- A concrete catalog-matched device used in concrete instances: a
PCAN-USB descriptor on bus 1 address 5 that opens successfully. -/
def exampleDevice : Device :=
  { descr := { idVendor := 0x0c72, idProduct := 0x000c, bus := 1, addr := 5 },
    openOk := true }

/-! Helper lemmas about the browse loop. -/

theorem matchedDevices_nil : matchedDevices [] = [] := rfl

theorem matchedDevices_cons_none (dev : Device) (rest : List Device)
    (hm : matchCatalog dev.descr = none) :
    matchedDevices (dev :: rest) = matchedDevices rest := by
  simp [matchedDevices, List.filterMap_cons, hm]

theorem matchedDevices_cons_some (dev : Device) (rest : List Device) (p : PcanType)
    (hm : matchCatalog dev.descr = some p) :
    matchedDevices (dev :: rest) = (p, dev) :: matchedDevices rest := by
  simp [matchedDevices, List.filterMap_cons, hm]

theorem listEntriesOf_nil : listEntriesOf [] = [] := rfl

theorem listEntriesOf_append (a b : List BrowseEvent) :
    listEntriesOf (a ++ b) = listEntriesOf a ++ listEntriesOf b :=
  List.filter_append a b

theorem listEntriesOf_entry_cons (i v pr bu ad : Nat) (n : String) (evs : List BrowseEvent) :
    listEntriesOf (BrowseEvent.listEntry i v pr bu ad n :: evs) =
      BrowseEvent.listEntry i v pr bu ad n :: listEntriesOf evs := by
  simp [listEntriesOf]

theorem listEntriesOf_openError_cons (evs : List BrowseEvent) :
    listEntriesOf (BrowseEvent.openError :: evs) = listEntriesOf evs := by
  simp [listEntriesOf]

theorem browseLoop_dev_handle_none (device_idx : Nat) (l : Bool) :
    ∀ (devs : List Device) (i : Nat), i + countMatches devs ≤ device_idx →
      (browseLoop device_idx l devs i).dev_handle = none := by
  intro devs
  induction devs with
  | nil => intro i _; rfl
  | cons dev rest ih =>
    intro i h
    cases hm : matchCatalog dev.descr with
    | none =>
      have hc : countMatches (dev :: rest) = countMatches rest := by
        simp [countMatches, matchedDevices_cons_none dev rest hm]
      simp only [browseLoop, hm]
      exact ih i (by omega)
    | some p =>
      have hc : countMatches (dev :: rest) = countMatches rest + 1 := by
        simp [countMatches, matchedDevices_cons_some dev rest p hm]
      have hne : ¬ i = device_idx := by omega
      simp only [browseLoop, hm, if_neg hne]
      exact ih (i + 1) (by omega)

theorem browseLoop_listEntries (device_idx : Nat) :
    ∀ (devs : List Device) (i : Nat),
      listEntriesOf (browseLoop device_idx true devs i).output =
        (List.enumFrom i (matchedDevices devs)).map (fun ip => entryOf ip.1 ip.2) := by
  intro devs
  induction devs with
  | nil => intro i; rfl
  | cons dev rest ih =>
    intro i
    cases hm : matchCatalog dev.descr with
    | none =>
      rw [matchedDevices_cons_none dev rest hm]
      simp only [browseLoop, hm]
      exact ih i
    | some p =>
      rw [matchedDevices_cons_some dev rest p hm]
      by_cases hi : i = device_idx
      · by_cases ho : dev.openOk
        · simp [browseLoop, hm, if_pos hi, ho, listEntriesOf_append,
            listEntriesOf_entry_cons, listEntriesOf_nil, List.enumFrom_cons,
            ih (i + 1), entryOf]
        · simp [browseLoop, hm, if_pos hi, ho, listEntriesOf_append,
            listEntriesOf_entry_cons, listEntriesOf_openError_cons, listEntriesOf_nil,
            List.enumFrom_cons, ih (i + 1), entryOf]
      · simp [browseLoop, hm, if_neg hi, listEntriesOf_append, listEntriesOf_entry_cons,
          listEntriesOf_nil, List.enumFrom_cons, ih (i + 1), entryOf]

theorem browseLoop_flag_indep (device_idx : Nat) (l1 l2 : Bool) :
    ∀ (devs : List Device) (i : Nat),
      (browseLoop device_idx l1 devs i).openAttempts =
          (browseLoop device_idx l2 devs i).openAttempts ∧
        (browseLoop device_idx l1 devs i).dev_handle =
          (browseLoop device_idx l2 devs i).dev_handle := by
  intro devs
  induction devs with
  | nil => intro i; exact ⟨rfl, rfl⟩
  | cons dev rest ih =>
    intro i
    cases hm : matchCatalog dev.descr with
    | none => simpa only [browseLoop, hm] using ih i
    | some p =>
      by_cases hi : i = device_idx
      · by_cases ho : dev.openOk
        · simp [browseLoop, hm, if_pos hi, ho, (ih (i + 1)).1]
        · simp [browseLoop, hm, if_pos hi, ho, (ih (i + 1)).1, (ih (i + 1)).2]
      · simp [browseLoop, hm, if_neg hi, (ih (i + 1)).1, (ih (i + 1)).2]

/-! The claim theorems. -/

/-- C1: For the query action the program performs two independent
request/response exchanges.  It sends a packet with byte 0 = 4 and byte
1 = 1, reads a response, and takes the device id to be byte 2 of that
response; then it sends a packet with byte 0 = 6 and byte 1 = 1, reads a
response, and takes the serial number to be bytes 2 through 5 of that
response interpreted as a little-endian unsigned 32-bit integer.  The two
printed values are functions of the two response byte lists alone. -/
theorem query_two_exchanges (resp1 resp2 : List Nat) :
    action_transfers Action.query =
      [Transfer.send get_device_id_req, Transfer.recv,
       Transfer.send get_serial_req, Transfer.recv] ∧
    get_device_id_req.getD 0 0 = 4 ∧ get_device_id_req.getD 1 0 = 1 ∧
    get_serial_req.getD 0 0 = 6 ∧ get_serial_req.getD 1 0 = 1 ∧
    query_action SendResult.ok (RecvResult.ok resp1) SendResult.ok (RecvResult.ok resp2) =
      [QEvent.printDeviceId (resp1.getD 2 0),
       QEvent.printSerial (resp2.getD 2 0 + resp2.getD 3 0 * 256 +
         resp2.getD 4 0 * 65536 + resp2.getD 5 0 * 16777216)] :=
  ⟨rfl, rfl, rfl, rfl, rfl, rfl⟩

/-- C2: For every 32-bit serial number value, encoding it little-endian
into bytes 2..5 of the set-serial-number command packet and then decoding
bytes 2..5 of that packet as a little-endian unsigned 32-bit integer yields
the original value. -/
theorem serial_le32_roundtrip (n : Nat) (h : n < 4294967296) :
    le32_decode (encode_set_serial n) = n := by
  show n % 256 + n / 256 % 256 * 256 + n / 65536 % 256 * 65536 +
      n / 16777216 % 256 * 16777216 = n
  omega

/-- C2 witness: the round trip at the concrete serial number 0x01020304. -/
theorem serial_le32_roundtrip_witness :
    le32_decode (encode_set_serial 0x01020304) = 0x01020304 :=
  serial_le32_roundtrip 0x01020304 (by decide)

/-- C3 counterexample: the claim says the device id argument 255 is
accepted, but the -i handler rejects every value greater than or equal to
UCHAR_MAX = 255, so the argument 255 is rejected as an argument error. -/
theorem deviceId_255_rejected :
    handle_i_option 255 = IOptionResult.argumentError := rfl

/-- C3 (amended): the device id argument of the -i option accepts every
value strictly below 255 and rejects 255 and above as an argument error
(non-zero exit); in particular the argument 256 is rejected and the
argument 254 is accepted. -/
theorem deviceId_arg_boundary (v : Nat) :
    (v < UCHAR_MAX → handle_i_option v = IOptionResult.ok v) ∧
    (UCHAR_MAX ≤ v → handle_i_option v = IOptionResult.argumentError) := by
  have hu : UCHAR_MAX = 255 := rfl
  constructor
  · intro h
    have h2 : ¬ UCHAR_MAX ≤ v := by omega
    have hv : v % 256 = v := Nat.mod_eq_of_lt (by omega)
    rw [handle_i_option, if_neg h2, hv]
  · intro h
    rw [handle_i_option, if_pos h]

/-- C3 witness: the amended boundary at the concrete arguments 254 and
256. -/
theorem deviceId_arg_boundary_witness :
    handle_i_option 254 = IOptionResult.ok 254 ∧
    handle_i_option 256 = IOptionResult.argumentError :=
  ⟨(deviceId_arg_boundary 254).1 (by decide), (deviceId_arg_boundary 256).2 (by decide)⟩

/-- C4 counterexample: with a single catalog-matched device and the default
index 0, list mode still calls libusb_open once and obtains a device
handle, so the claim that list mode does not open any device fails. -/
theorem list_mode_opens_device :
    (browse_devices [exampleDevice] 0 true).openAttempts = 1 ∧
    (browse_devices [exampleDevice] 0 true).dev_handle = some exampleDevice :=
  ⟨rfl, rfl⟩

/-- C4 (amended): in list mode the enumerator prints, for each
catalog-matched device in enumeration order, its zero-based match index,
vendor and product ids, bus and address, and catalog name; however it still
attempts to open the device whose match index equals the requested index,
exactly as in non-list mode: the number of open calls and the resulting
device handle are the same as with listing disabled. -/
theorem list_mode_output_and_open (devices : List Device) (idx : Nat) :
    listEntriesOf (browse_devices devices idx true).output =
      (matchedDevices devices).enum.map (fun ip => entryOf ip.1 ip.2) ∧
    (browse_devices devices idx true).openAttempts =
      (browse_devices devices idx false).openAttempts ∧
    (browse_devices devices idx true).dev_handle =
      (browse_devices devices idx false).dev_handle :=
  ⟨browseLoop_listEntries idx devices 0,
   (browseLoop_flag_indep idx true false devices 0).1,
   (browseLoop_flag_indep idx true false devices 0).2⟩

/-- C5: every command packet the program sends is exactly 16 bytes long,
and every byte after the meaningful prefix (2-byte header plus the 0-, 1-
or 4-byte payload) is zero: the set-device-id packet beyond byte 2, the
set-serial-number packet beyond byte 5, and the two request packets beyond
byte 1. -/
theorem command_packets_sixteen_zero_padded (d n : Nat) :
    ((encode_set_device_id d).length = 16 ∧
      (encode_set_device_id d).drop 3 = List.replicate 13 0) ∧
    ((encode_set_serial n).length = 16 ∧
      (encode_set_serial n).drop 6 = List.replicate 10 0) ∧
    (get_device_id_req.length = 16 ∧
      get_device_id_req.drop 2 = List.replicate 14 0) ∧
    (get_serial_req.length = 16 ∧
      get_serial_req.drop 2 = List.replicate 14 0) :=
  ⟨⟨rfl, rfl⟩, ⟨rfl, rfl⟩, ⟨rfl, rfl⟩, ⟨rfl, rfl⟩⟩

/-- C6: the set-device-id action performs exactly one transfer, a send of
the packet 4, 2, device id (then zero padding), and reads no response; the
set-serial-number action performs exactly one transfer, a send of the
packet 6, 2, serial number in little-endian byte order (then zero padding),
and reads no response. -/
theorem set_actions_single_send (d n : Nat) :
    action_transfers (Action.setId d) =
      [Transfer.send ([4, 2, d % 256] ++ List.replicate 13 0)] ∧
    action_transfers (Action.setSerial n) =
      [Transfer.send ([6, 2, n % 256, n / 256 % 256, n / 65536 % 256,
        n / 16777216 % 256] ++ List.replicate 10 0)] :=
  ⟨rfl, rfl⟩

/-- C7: the enumerator assigns zero-based sequential indices only to
devices whose vendor and product ids appear in the static catalog, in
enumeration order; a non-matching device is skipped without consuming an
index slot, and every catalog-matched device appears in the listing output:
the listing lines are exactly the catalog matches paired with consecutive
indices from 0. -/
theorem enumerator_indices_matches_only (devices : List Device) (idx : Nat) :
    listEntriesOf (browse_devices devices idx true).output =
      (matchedDevices devices).enum.map (fun ip => entryOf ip.1 ip.2) :=
  browseLoop_listEntries idx devices 0

/-- C8: if no catalog-matched device reaches the requested index, and in
particular when zero matching devices are present, main fails with the
device-not-found error and exit code 1 instead of proceeding with the
action. -/
theorem missing_device_not_found (action : Action) (idx : Nat) (devices : List Device)
    (h : countMatches devices ≤ idx % 256) :
    (∃ out, run_main action idx devices = MainResult.notFound out) ∧
    (run_main action idx devices).exitCode = 1 := by
  have hh : (browse_devices devices (uint8_of_uint32 idx)
      (decide (action = Action.list))).dev_handle = none :=
    browseLoop_dev_handle_none (uint8_of_uint32 idx) (decide (action = Action.list))
      devices 0 (by simp only [uint8_of_uint32]; omega)
  have hr : run_main action idx devices = MainResult.notFound
      (browse_devices devices (uint8_of_uint32 idx) (decide (action = Action.list))).output := by
    simp only [run_main]
    rw [hh]
  exact ⟨⟨_, hr⟩, by rw [hr]; rfl⟩

/-- C8 witness: with an empty system device list and index 0, main reports
device-not-found and exits 1. -/
theorem missing_device_not_found_witness :
    (∃ out, run_main Action.query 0 [] = MainResult.notFound out) ∧
    (run_main Action.query 0 []).exitCode = 1 :=
  missing_device_not_found Action.query 0 [] (by decide)

/-- C9: a failed bulk transfer is non-fatal.  For every combination of
transfer outcomes the query action produces the full output trace: each
failing transfer contributes its human-readable error line, execution
continues, and the device id and serial number lines are still printed,
derived from whatever the packet buffer contains (the response on a
successful read, the zero bytes of the request buffer on a failed one). -/
theorem transfer_failure_nonfatal (o1 : SendResult) (i1 : RecvResult)
    (o2 : SendResult) (i2 : RecvResult) :
    query_action o1 i1 o2 i2 =
      sendLog o1 ++ recvLog i1 ++
        [QEvent.printDeviceId ((bufAfter get_device_id_req i1).getD 2 0)] ++
        sendLog o2 ++ recvLog i2 ++
        [QEvent.printSerial (le32_decode (bufAfter get_serial_req i2))] ∧
    (∃ v, QEvent.printDeviceId v ∈ query_action o1 i1 o2 i2) ∧
    (∃ v, QEvent.printSerial v ∈ query_action o1 i1 o2 i2) := by
  have he : query_action o1 i1 o2 i2 =
      sendLog o1 ++ recvLog i1 ++
        [QEvent.printDeviceId ((bufAfter get_device_id_req i1).getD 2 0)] ++
        sendLog o2 ++ recvLog i2 ++
        [QEvent.printSerial (le32_decode (bufAfter get_serial_req i2))] := by
    cases o1 <;> cases i1 <;> cases o2 <;> cases i2 <;>
      simp [query_action, libusb_bulk_send, libusb_bulk_recv, sendLog, recvLog, bufAfter]
  refine ⟨he, ⟨(bufAfter get_device_id_req i1).getD 2 0, ?_⟩,
    ⟨le32_decode (bufAfter get_serial_req i2), ?_⟩⟩
  · rw [he]; simp
  · rw [he]; simp

/-- C10: the device index given with -d is parsed as a 32-bit unsigned
value but passed to enumeration through an 8-bit unsigned parameter, so
main behaves at every parsed value v exactly as at index v mod 256; in
particular -d 256 selects the device at index 0 instead of being rejected
or reported as not found. -/
theorem device_index_truncated_mod_256 :
    (∀ (action : Action) (v : Nat) (devices : List Device),
      run_main action v devices = run_main action (v % 256) devices) ∧
    run_main Action.query 256 [exampleDevice] =
      run_main Action.query 0 [exampleDevice] ∧
    (browse_devices [exampleDevice] (uint8_of_uint32 256) false).dev_handle =
      some exampleDevice ∧
    (run_main Action.query 256 [exampleDevice]).exitCode = 0 := by
  have key : ∀ (action : Action) (v : Nat) (devices : List Device),
      run_main action v devices = run_main action (v % 256) devices := by
    intro action v devices
    have hv : v % 256 % 256 = v % 256 := Nat.mod_mod_of_dvd v (dvd_refl 256)
    simp only [run_main, uint8_of_uint32, hv]
  exact ⟨key, rfl, rfl, rfl⟩

end PcanId
